import Mathlib

/-!
Shallow embedding of the risk-scoring service
(`src/app/src/models/schemas.py`, `src/app/src/services/riskshield_client.py`,
`src/app/src/services/riskshield.py`, `src/app/src/api/v1/routes.py`).

Python machine integers are modelled as `Int` (Python ints are unbounded),
the monotonic clock as `Nat`, exceptions as `Except`, and the two tenacity
retry-decorated coroutines as fuel-bounded attempt loops over a stream of
upstream responses (`Nat → UpstreamResponse`, attempt `i` sees response `i`).
-/

deriving instance DecidableEq for Except

namespace RiskApp

/-- Model of `RiskLevel` enum of `src/models/schemas.py` (identical member set in
`src/models/validation.py`). -/
inductive RiskLevel where
  | LOW
  | MEDIUM
  | HIGH
  | CRITICAL
deriving DecidableEq, Repr

/-- Model of `RiskLevel.from_score` in `src/models/schemas.py`: `score < 30 → LOW`,
`score < 60 → MEDIUM`, `score < 80 → HIGH`, else `CRITICAL`.  The Python code
performs no range check on `score`. -/
def RiskLevel.fromScore (score : Int) : RiskLevel :=
  if score < 30 then .LOW
  else if score < 60 then .MEDIUM
  else if score < 80 then .HIGH
  else .CRITICAL

/-- Model of `RiskLevel(value)` enum construction in Python: succeeds exactly on the
four member strings, raises `ValueError` otherwise. -/
def RiskLevel.ofString : String → Option RiskLevel
  | "LOW" => some .LOW
  | "MEDIUM" => some .MEDIUM
  | "HIGH" => some .HIGH
  | "CRITICAL" => some .CRITICAL
  | _ => none

/-- Severity order of the enum members, used to state monotonicity. -/
def RiskLevel.rank : RiskLevel → Nat
  | .LOW => 0
  | .MEDIUM => 1
  | .HIGH => 2
  | .CRITICAL => 3

/-- Model of `RiskShieldClient._classify_risk_level` in `src/services/riskshield.py`:
`≤ 25 → LOW`, `≤ 50 → MEDIUM`, `≤ 75 → HIGH`, else `CRITICAL`.
No range check either. -/
def classifyRiskLevel (riskScore : Int) : RiskLevel :=
  if riskScore ≤ 25 then .LOW
  else if riskScore ≤ 50 then .MEDIUM
  else if riskScore ≤ 75 then .HIGH
  else .CRITICAL

/-- A character is an ASCII decimal digit (`str.isdigit` on the inputs the
validator accepts). -/
def isDigitChar (c : Char) : Bool :=
  '0' ≤ c && c ≤ '9'

/-- Numeric value of a digit character. -/
def digitVal (c : Char) : Nat :=
  c.toNat - '0'.toNat

/-- Fold step of the Luhn check: double a digit and subtract 9 when the
doubling exceeds 9 (`doubled - 9 if doubled > 9 else doubled`). -/
def luhnFold (d : Nat) : Nat :=
  let doubled := d * 2
  if doubled > 9 then doubled - 9 else doubled

/-- Every second element of a list starting with the head: the Python slice
`l[0::2]`.  Applied to a reversed digit list this matches `digits[-1::-2]`. -/
def everyOther : List Nat → List Nat
  | [] => []
  | [a] => [a]
  | a :: _ :: rest => a :: everyOther rest

/-- Checksum of `ValidationRequest._luhn_check` in `src/models/schemas.py`:
`odd_digits = digits[-1::-2]` summed as-is plus `even_digits = digits[-2::-2]`
doubled and folded. -/
def luhnChecksum (digits : List Nat) : Nat :=
  let rd := digits.reverse
  (everyOther rd).sum + ((everyOther rd.tail).map luhnFold).sum

/-- Model of `ValidationRequest._luhn_check`: checksum divisible by 10. -/
def luhnCheck (digits : List Nat) : Bool :=
  luhnChecksum digits % 10 == 0

/-- Modelled from the spec sentence of C10: walk the digits from the right,
adding digits at odd positions (1st, 3rd, … from the right) directly and the
doubled-and-folded digits at even positions (2nd, 4th, … from the right). -/
def luhnSpecGo : List Nat → Nat
  | [] => 0
  | [a] => a
  | a :: b :: rest => a + luhnFold b + luhnSpecGo rest

/-- Claim-side Luhn checksum: `luhnSpecGo` over the reversed digit list. -/
def luhnSpecChecksum (digits : List Nat) : Nat :=
  luhnSpecGo digits.reverse

/-- Month field of a 13-digit id: `int(v[2:4])`. -/
def idMonth (v : String) : Nat :=
  10 * digitVal ((v.data.drop 2).headD '0') + digitVal ((v.data.drop 3).headD '0')

/-- Day field of a 13-digit id: `int(v[4:6])`. -/
def idDay (v : String) : Nat :=
  10 * digitVal ((v.data.drop 4).headD '0') + digitVal ((v.data.drop 5).headD '0')

/-- Model of `ValidationRequest.validate_id_number` in `src/models/schemas.py`:
digits-only, length 13, month in 1..12, day in 1..31, Luhn checksum; checks
performed in that order, first failure raises `ValueError` with the shown
message. -/
def validate_id_number (v : String) : Except String String :=
  if ¬ (v.data.all isDigitChar = true) then
    .error "ID number must contain only digits"
  else if ¬ (v.data.length = 13) then
    .error "ID number must be exactly 13 digits"
  else if ¬ (1 ≤ idMonth v ∧ idMonth v ≤ 12) then
    .error "Invalid date in ID number: Invalid month in ID number"
  else if ¬ (1 ≤ idDay v ∧ idDay v ≤ 31) then
    .error "Invalid date in ID number: Invalid day in ID number"
  else if ¬ (luhnCheck (v.data.map digitVal) = true) then
    .error "Invalid ID number (checksum failed)"
  else
    .ok v

/-- Model of `CircuitState` enum of `src/services/riskshield_client.py`. -/
inductive CircuitState where
  | CLOSED
  | OPEN
  | HALF_OPEN
deriving DecidableEq, Repr

namespace Client

/-- The typed errors raised by `RiskShieldClient.validate` in
`src/services/riskshield_client.py`: `RiskShieldTimeoutError`,
`RiskShieldRateLimitError`, `RiskShieldAuthError`, `RiskShieldServerError`,
and the base `RiskShieldError` (carrying a status code). -/
inductive RSError where
  | timeoutError
  | rateLimitError (retryAfter : Option Nat)
  | authError
  | serverError (statusCode : Nat)
  | apiError (statusCode : Nat)
deriving DecidableEq, Repr

/-- Model of `retry_if_exception_type(RiskShieldServerError)` on `validate`: only
`RiskShieldServerError` instances are retried; the sibling subclasses
(timeout, rate-limit, auth) and the base class are not. -/
def clientRetryable : RSError → Bool
  | .serverError _ => true
  | _ => false

/-- Model of `CircuitBreaker` of `src/services/riskshield_client.py`
(defaults: `failure_threshold=5`, `recovery_timeout=30.0`,
`half_open_max_calls=3`); the monotonic clock is modelled as `Nat`. -/
structure CircuitBreaker where
  failureThreshold : Nat := 5
  recoveryTimeout : Nat := 30
  halfOpenMaxCalls : Nat := 3
  state : CircuitState := .CLOSED
  failureCount : Nat := 0
  lastFailureTime : Option Nat := none
  halfOpenCalls : Nat := 0
deriving DecidableEq, Repr

/-- Model of `CircuitBreaker.can_execute`: returns the admission decision and the
(possibly mutated) breaker. -/
def CircuitBreaker.canExecute (b : CircuitBreaker) (now : Nat) :
    Bool × CircuitBreaker :=
  match b.state with
  | .CLOSED => (true, b)
  | .OPEN =>
    match b.lastFailureTime with
    | none => (true, { b with state := .HALF_OPEN })
    | some t =>
      if b.recoveryTimeout ≤ now - t then
        (true, { b with state := .HALF_OPEN, halfOpenCalls := 0 })
      else
        (false, b)
  | .HALF_OPEN =>
    if b.halfOpenCalls < b.halfOpenMaxCalls then
      (true, { b with halfOpenCalls := b.halfOpenCalls + 1 })
    else
      (false, b)

/-- Model of `CircuitBreaker.record_success`: only a HALF_OPEN success closes the
circuit and resets the failure counter; in CLOSED (and OPEN) it is a no-op. -/
def CircuitBreaker.recordSuccess (b : CircuitBreaker) : CircuitBreaker :=
  match b.state with
  | .HALF_OPEN => { b with state := .CLOSED, failureCount := 0 }
  | _ => b

/-- Model of `CircuitBreaker.record_failure`: increment the counter, stamp the failure
time, and trip to OPEN from HALF_OPEN or when the counter reaches the
threshold. -/
def CircuitBreaker.recordFailure (b : CircuitBreaker) (now : Nat) :
    CircuitBreaker :=
  let b' := { b with failureCount := b.failureCount + 1,
                     lastFailureTime := some now }
  match b'.state with
  | .HALF_OPEN => { b' with state := .OPEN }
  | _ =>
    if b'.failureThreshold ≤ b'.failureCount then { b' with state := .OPEN }
    else b'

/-- JSON body of an upstream 2xx response as read by the clients:
`riskScore`, `riskLevel`, `additionalData` keys, each possibly absent. -/
structure Body where
  riskScore : Option Int := none
  riskLevel : Option String := none
  additionalData : Option String := none
deriving DecidableEq, Repr

/-- Outcome of one HTTP attempt against the upstream: a status-coded response
with a body (and optional `Retry-After` header), an `httpx.TimeoutException`,
or another `httpx.RequestError`. -/
inductive UpstreamResponse where
  | http (statusCode : Nat) (retryAfter : Option Nat) (body : Body)
  | timeoutExc
  | requestExc
deriving DecidableEq, Repr

/-- Model of `RiskShieldResult` dataclass of `src/services/riskshield_client.py`. -/
structure RiskShieldResult where
  riskScore : Int
  riskLevel : String
  additionalData : Option String := none
deriving DecidableEq, Repr

/-- The configuration consulted by `RiskShieldClient._get_api_key`:
`settings.riskshield_api_key`, `settings.key_vault_url`, and the value the
Key Vault fetch would yield (`none` = the fetch raises). -/
structure Settings where
  riskshieldApiKey : Option String := none
  keyVaultUrl : Option String := none
  keyVaultSecret : Option String := none
deriving DecidableEq, Repr

/-- Mutable state of a `RiskShieldClient` instance: the cached `_api_key`
and the `_circuit_breaker`. -/
structure ClientState where
  apiKey : Option String := none
  breaker : CircuitBreaker := {}
deriving DecidableEq, Repr

/-- Model of `RiskShieldClient._get_api_key`: cached value first, then
`settings.riskshield_api_key`, then Key Vault; otherwise
`RiskShieldAuthError`.  The extra `Bool` records whether the call was a
cache hit (returned the already-cached `_api_key`). -/
def getApiKey (settings : Settings) (st : ClientState) :
    Except RSError (String × ClientState) × Bool :=
  match st.apiKey with
  | some k => (.ok (k, st), true)
  | none =>
    match settings.riskshieldApiKey with
    | some k => (.ok (k, { st with apiKey := some k }), false)
    | none =>
      match settings.keyVaultUrl with
      | some _ =>
        match settings.keyVaultSecret with
        | some v => (.ok (v, { st with apiKey := some v }), false)
        | none => (.error .authError, false)
      | none => (.error .authError, false)

/-- Per-attempt side-channel observations: network requests issued and
`_get_api_key` invocations performed during the attempt. -/
structure AttemptTrace where
  networkCalls : Nat := 0
  credentialLookups : Nat := 0
deriving DecidableEq, Repr

/-- One body of the retry-decorated `RiskShieldClient.validate`: circuit
check, credential lookup, HTTP call, status dispatch (200 parse with
`data.get` defaults, 401 cache invalidation, 429, ≥500, other codes, and the
transport exception handlers). -/
def clientAttempt (settings : Settings) (now : Nat) (st : ClientState)
    (resp : UpstreamResponse) :
    Except RSError RiskShieldResult × ClientState × AttemptTrace :=
  let (allowed, breaker1) := st.breaker.canExecute now
  let st1 := { st with breaker := breaker1 }
  if ¬ (allowed = true) then
    (.error (.serverError 503), st1, {})
  else
    match getApiKey settings st1 with
    | (.error e, _) => (.error e, st1, { credentialLookups := 1 })
    | (.ok (_, st2), _) =>
      let tr : AttemptTrace := { networkCalls := 1, credentialLookups := 1 }
      match resp with
      | .http 200 _ body =>
        let st3 := { st2 with breaker := st2.breaker.recordSuccess }
        (.ok { riskScore := body.riskScore.getD 0,
               riskLevel := body.riskLevel.getD "UNKNOWN",
               additionalData := body.additionalData }, st3, tr)
      | .http 401 _ _ =>
        let st3 := { st2 with apiKey := none }
        let st4 := { st3 with breaker := st3.breaker.recordFailure now }
        (.error .authError, st4, tr)
      | .http 429 retryAfter _ =>
        let st3 := { st2 with breaker := st2.breaker.recordFailure now }
        (.error (.rateLimitError retryAfter), st3, tr)
      | .http code _ _ =>
        let st3 := { st2 with breaker := st2.breaker.recordFailure now }
        if 500 ≤ code then
          (.error (.serverError code), st3, tr)
        else
          (.error (.apiError code), st3, tr)
      | .timeoutExc =>
        let st3 := { st2 with breaker := st2.breaker.recordFailure now }
        (.error .timeoutError, st3, tr)
      | .requestExc =>
        let st3 := { st2 with breaker := st2.breaker.recordFailure now }
        (.error (.apiError 503), st3, tr)

/-- Aggregate outcome of one `validate()` call: final result, final client
state, total attempts made by the tenacity loop, and summed traces. -/
structure ClientRun where
  result : Except RSError RiskShieldResult
  state : ClientState
  attempts : Nat
  networkCalls : Nat
  credentialLookups : Nat
deriving DecidableEq, Repr

/-- The tenacity executor on `validate`
(`stop_after_attempt(3)`, `retry_if_exception_type(RiskShieldServerError)`,
`reraise=True`): run attempts until success, a non-retryable error, or the
attempt budget is spent; attempt `i` consumes `resps i`. -/
def validateGo (settings : Settings) (now : Nat)
    (resps : Nat → UpstreamResponse) :
    Nat → Nat → ClientState → ClientRun
  | 0, i, st =>
    let (r, st', tr) := clientAttempt settings now st (resps i)
    { result := r, state := st', attempts := i + 1,
      networkCalls := tr.networkCalls,
      credentialLookups := tr.credentialLookups }
  | fuel + 1, i, st =>
    let (r, st', tr) := clientAttempt settings now st (resps i)
    match r with
    | .ok a =>
      { result := .ok a, state := st', attempts := i + 1,
        networkCalls := tr.networkCalls,
        credentialLookups := tr.credentialLookups }
    | .error e =>
      if clientRetryable e = true ∧ ¬ (fuel = 0) then
        let run := validateGo settings now resps fuel (i + 1) st'
        { run with
            networkCalls := tr.networkCalls + run.networkCalls,
            credentialLookups := tr.credentialLookups + run.credentialLookups }
      else
        { result := .error e, state := st', attempts := i + 1,
          networkCalls := tr.networkCalls,
          credentialLookups := tr.credentialLookups }

/-- Model of `RiskShieldClient.validate` with its retry decorator: at most 3 attempts. -/
def validate (settings : Settings) (now : Nat) (st : ClientState)
    (resps : Nat → UpstreamResponse) : ClientRun :=
  validateGo settings now resps 3 0 st

end Client

namespace Svc

/-- The errors observable from `src/services/riskshield.py`:
`httpx.HTTPStatusError` (carrying the status code), `RiskShieldTimeoutError`,
`RiskShieldUnavailableError`, `RiskShieldCircuitOpenError`, the `KeyError`
from a missing body key, the `ValueError` from an invalid `RiskLevel` string,
and an uncaught non-timeout transport error. -/
inductive SvcError where
  | httpStatusError (statusCode : Nat)
  | timeoutError
  | unavailableError
  | circuitOpenError
  | keyError
  | valueError
  | requestError
deriving DecidableEq, Repr

/-- Model of `retry_if_exception_type(httpx.HTTPStatusError)` on
`_validate_with_retry`: exactly the `HTTPStatusError` values are retried. -/
def svcRetryable : SvcError → Bool
  | .httpStatusError _ => true
  | _ => false

/-- Model of `CircuitBreaker` of `src/services/riskshield.py`
(`failure_threshold=5`, `recovery_timeout=60.0`); `openedAt` is the
monotonic timestamp recorded when the breaker tripped. -/
structure CircuitBreaker where
  failureThreshold : Nat := 5
  recoveryTimeout : Nat := 60
  failureCount : Nat := 0
  openedAt : Option Nat := none
deriving DecidableEq, Repr

/-- Model of `CircuitBreaker.is_open`: open while tripped and the recovery timeout has
not yet elapsed; once it elapses, one probe is allowed (reports closed). -/
def CircuitBreaker.isOpen (b : CircuitBreaker) (now : Nat) : Bool :=
  match b.openedAt with
  | none => false
  | some t => if b.recoveryTimeout ≤ now - t then false else true

/-- Model of `CircuitBreaker.record_success`: unconditionally reset the counter and
close the circuit. -/
def CircuitBreaker.recordSuccess (b : CircuitBreaker) : CircuitBreaker :=
  { b with failureCount := 0, openedAt := none }

/-- Model of `CircuitBreaker.record_failure`: increment the counter; on reaching the
threshold record `openedAt = now` if not already tripped. -/
def CircuitBreaker.recordFailure (b : CircuitBreaker) (now : Nat) :
    CircuitBreaker :=
  let b' := { b with failureCount := b.failureCount + 1 }
  if b'.failureThreshold ≤ b'.failureCount then
    match b'.openedAt with
    | none => { b' with openedAt := some now }
    | some _ => b'
  else b'

/-- One body of `RiskShieldClient._validate_with_retry`: POST, then raise
`HTTPStatusError` on ≥500 or 429, `response.raise_for_status()` (which also
raises `HTTPStatusError` on the remaining 4xx), then parse
`data["riskScore"]` and `RiskLevel(data["riskLevel"])`; a transport timeout
becomes `RiskShieldTimeoutError`. -/
def svcAttempt (resp : Client.UpstreamResponse) :
    Except SvcError (Int × RiskLevel) :=
  match resp with
  | .http code _ body =>
    if 500 ≤ code ∨ code = 429 then .error (.httpStatusError code)
    else if 400 ≤ code then .error (.httpStatusError code)
    else
      match body.riskScore with
      | none => .error .keyError
      | some s =>
        match body.riskLevel with
        | none => .error .keyError
        | some l =>
          match RiskLevel.ofString l with
          | none => .error .valueError
          | some lv => .ok (s, lv)
  | .timeoutExc => .error .timeoutError
  | .requestExc => .error .requestError

/-- The tenacity executor on `_validate_with_retry`
(`stop_after_attempt(3)`, retry on `httpx.HTTPStatusError`, `reraise=True`);
also returns the number of attempts made. -/
def validateWithRetryGo (resps : Nat → Client.UpstreamResponse) :
    Nat → Nat → Except SvcError (Int × RiskLevel) × Nat
  | 0, i =>
    (svcAttempt (resps i), i + 1)
  | fuel + 1, i =>
    match svcAttempt (resps i) with
    | .ok a => (.ok a, i + 1)
    | .error e =>
      if svcRetryable e = true ∧ ¬ (fuel = 0) then
        validateWithRetryGo resps fuel (i + 1)
      else
        (.error e, i + 1)

/-- Model of `RiskShieldClient._validate_with_retry` with its decorator:
at most 3 attempts. -/
def validateWithRetry (resps : Nat → Client.UpstreamResponse) :
    Except SvcError (Int × RiskLevel) × Nat :=
  validateWithRetryGo resps 3 0

/-- Model of `RiskShieldClient._calculate_demo_risk_score`: digit sum modulo 101. -/
def calculateDemoRiskScore (idNumber : String) : Int :=
  Int.ofNat ((idNumber.data.map digitVal).sum % 101)

/-- Mutable state of the `src/services/riskshield.py` client that matters
here: the configured `api_key` and the circuit breaker. -/
structure SvcState where
  apiKey : Option String := none
  breaker : CircuitBreaker := {}
deriving DecidableEq, Repr

/-- Outcome of one `validate_applicant` call: result, final state, and how
many network attempts `_validate_with_retry` made (0 when it was never
invoked). -/
structure SvcRun where
  result : Except SvcError (Int × RiskLevel)
  state : SvcState
  networkAttempts : Nat
deriving DecidableEq, Repr

/-- Model of `RiskShieldClient.validate_applicant`: demo path when no API key is
configured; otherwise circuit-breaker gate, retry-wrapped call, then
`record_success` on success, `record_failure` plus re-wrap for the
`RiskShieldTimeoutError` / `RiskShieldUnavailableError` except-clauses, and
plain propagation (breaker untouched) for every other exception. -/
def validateApplicant (st : SvcState) (now : Nat)
    (resps : Nat → Client.UpstreamResponse) (idNumber : String) : SvcRun :=
  match st.apiKey with
  | none =>
    let score := calculateDemoRiskScore idNumber
    { result := .ok (score, classifyRiskLevel score), state := st,
      networkAttempts := 0 }
  | some _ =>
    if st.breaker.isOpen now = true then
      { result := .error .circuitOpenError, state := st, networkAttempts := 0 }
    else
      match validateWithRetry resps with
      | (.ok a, n) =>
        { result := .ok a,
          state := { st with breaker := st.breaker.recordSuccess },
          networkAttempts := n }
      | (.error .timeoutError, n) =>
        { result := .error .unavailableError,
          state := { st with breaker := st.breaker.recordFailure now },
          networkAttempts := n }
      | (.error .unavailableError, n) =>
        { result := .error .unavailableError,
          state := { st with breaker := st.breaker.recordFailure now },
          networkAttempts := n }
      | (.error e, n) =>
        { result := .error e, state := st, networkAttempts := n }

end Svc

namespace Route

/-- Model of `ValidationResponse` of `src/models/schemas.py` as far as score and level
are concerned (the correlation id and `additional_data` are orthogonal to the
claims settled here). -/
structure ValidationResponse where
  riskScore : Int
  riskLevel : RiskLevel
deriving DecidableEq, Repr

/-- Model of `ValidationResponse.validate_risk_level_matches_score`
(`model_validator(mode="after")`): silently replace an inconsistent level by
the one derived from the score. -/
def validateRiskLevelMatchesScore (resp : ValidationResponse) :
    ValidationResponse :=
  let expected := RiskLevel.fromScore resp.riskScore
  if ¬ (resp.riskLevel = expected) then { resp with riskLevel := expected }
  else resp

/-- The success path of `validate_applicant` in `src/api/v1/routes.py`:
`ValidationResponse(risk_score=result.risk_score,
risk_level=RiskLevel.from_score(result.risk_score), ...)`, after which
pydantic runs the model validator. -/
def buildValidationResponse (result : Client.RiskShieldResult) :
    ValidationResponse :=
  validateRiskLevelMatchesScore
    { riskScore := result.riskScore,
      riskLevel := RiskLevel.fromScore result.riskScore }

/-- The except-clause ladder of `validate_applicant` in
`src/api/v1/routes.py`: HTTP status returned to the caller for each typed
client error (auth 401, rate-limit 429, timeout 504, server 503,
base error 502). -/
def routeErrorStatus : Client.RSError → Nat
  | .authError => 401
  | .rateLimitError _ => 429
  | .timeoutError => 504
  | .serverError _ => 503
  | .apiError _ => 502

end Route

/-- Settings fixture with a statically configured API key, as in local dev. -/
def testSettings : Client.Settings :=
  { riskshieldApiKey := some "test-key" }

/-- A fresh client whose API key is already cached and whose breaker is in
its initial CLOSED state. -/
def freshClient : Client.ClientState :=
  { apiKey := some "k" }

/-- A client whose breaker is OPEN with a recent failure (recovery timeout
not yet elapsed at clock value 1). -/
def openClient : Client.ClientState :=
  { apiKey := some "k",
    breaker := { state := .OPEN, failureCount := 5,
                 lastFailureTime := some 0 } }

/-- A `riskshield.py` client whose breaker tripped recently (recovery
timeout not yet elapsed at clock value 1). -/
def openSvc : Svc.SvcState :=
  { apiKey := some "k", breaker := { failureCount := 5, openedAt := some 0 } }

/-- Upstream that answers every attempt identically. -/
def always (r : Client.UpstreamResponse) : Nat → Client.UpstreamResponse :=
  fun _ => r

/-- A 2xx body whose `riskLevel` ("LOW") is inconsistent with its
`riskScore` (72). -/
def inconsistentBody : Client.Body :=
  { riskScore := some 72, riskLevel := some "LOW" }

theorem fromScore_low {s : Int} (h : s < 30) :
    RiskLevel.fromScore s = .LOW := by
  unfold RiskLevel.fromScore
  rw [if_pos h]

theorem fromScore_medium {s : Int} (h1 : 30 ≤ s) (h2 : s < 60) :
    RiskLevel.fromScore s = .MEDIUM := by
  unfold RiskLevel.fromScore
  rw [if_neg (by omega), if_pos h2]

theorem fromScore_high {s : Int} (h1 : 60 ≤ s) (h2 : s < 80) :
    RiskLevel.fromScore s = .HIGH := by
  unfold RiskLevel.fromScore
  rw [if_neg (by omega), if_neg (by omega), if_pos h2]

theorem fromScore_critical {s : Int} (h : 80 ≤ s) :
    RiskLevel.fromScore s = .CRITICAL := by
  unfold RiskLevel.fromScore
  rw [if_neg (by omega), if_neg (by omega), if_neg (by omega)]

theorem fromScore_mono {s t : Int} (h : s ≤ t) :
    (RiskLevel.fromScore s).rank ≤ (RiskLevel.fromScore t).rank := by
  unfold RiskLevel.fromScore
  split_ifs <;> simp_all [RiskLevel.rank] <;> omega

theorem classify_low {s : Int} (h : s ≤ 25) :
    classifyRiskLevel s = .LOW := by
  unfold classifyRiskLevel
  rw [if_pos h]

theorem classify_medium {s : Int} (h1 : 26 ≤ s) (h2 : s ≤ 50) :
    classifyRiskLevel s = .MEDIUM := by
  unfold classifyRiskLevel
  rw [if_neg (by omega), if_pos h2]

theorem classify_high {s : Int} (h1 : 51 ≤ s) (h2 : s ≤ 75) :
    classifyRiskLevel s = .HIGH := by
  unfold classifyRiskLevel
  rw [if_neg (by omega), if_neg (by omega), if_pos h2]

theorem classify_critical {s : Int} (h : 76 ≤ s) :
    classifyRiskLevel s = .CRITICAL := by
  unfold classifyRiskLevel
  rw [if_neg (by omega), if_neg (by omega), if_neg (by omega)]

theorem classify_mono {s t : Int} (h : s ≤ t) :
    (classifyRiskLevel s).rank ≤ (classifyRiskLevel t).rank := by
  unfold classifyRiskLevel
  split_ifs <;> simp_all [RiskLevel.rank] <;> omega

theorem everyOther_cons (b : Nat) (rest : List Nat) :
    everyOther (b :: rest) = b :: everyOther rest.tail := by
  cases rest with
  | nil => rfl
  | cons c r => rfl

theorem everyOther_split :
    ∀ l : List Nat,
      (everyOther l).sum + ((everyOther l.tail).map luhnFold).sum
        = luhnSpecGo l
  | [] => by simp [everyOther, luhnSpecGo]
  | [a] => by simp [everyOther, luhnSpecGo]
  | a :: b :: rest => by
    have ih := everyOther_split rest
    rw [show everyOther (a :: b :: rest) = a :: everyOther rest from rfl]
    rw [show (a :: b :: rest).tail = b :: rest from rfl]
    rw [everyOther_cons b rest]
    simp only [List.sum_cons, List.map_cons, luhnSpecGo]
    omega

theorem luhnChecksum_eq_spec (digits : List Nat) :
    luhnChecksum digits = luhnSpecChecksum digits := by
  unfold luhnChecksum luhnSpecChecksum
  exact everyOther_split digits.reverse

/-- C5: every successful validation derives the returned risk level from the
numeric score via `RiskLevel.from_score`, overriding any inconsistent
upstream level; both the route's explicit derivation and the
`ValidationResponse` model validator enforce it, and an upstream 2xx with
`riskScore 72` / `riskLevel "LOW"` yields `score 72`, `level HIGH`. -/
theorem C5_level_derived_from_score :
    (∀ result : Client.RiskShieldResult,
        (Route.buildValidationResponse result).riskScore = result.riskScore ∧
        (Route.buildValidationResponse result).riskLevel =
          RiskLevel.fromScore result.riskScore) ∧
    (∀ resp : Route.ValidationResponse,
        (Route.validateRiskLevelMatchesScore resp).riskLevel =
          RiskLevel.fromScore resp.riskScore) ∧
    (Client.validate testSettings 1 freshClient
        (always (.http 200 none inconsistentBody))).result =
      .ok { riskScore := 72, riskLevel := "LOW" } ∧
    Route.buildValidationResponse { riskScore := 72, riskLevel := "LOW" } =
      { riskScore := 72, riskLevel := .HIGH } := by
  refine ⟨?_, ?_, by decide, by decide⟩
  · intro r
    simp [Route.buildValidationResponse, Route.validateRiskLevelMatchesScore]
  · intro resp
    simp only [Route.validateRiskLevelMatchesScore]
    split_ifs with h
    · exact h
    · rfl

/-- C6 counterexample: the claim covers both cited classifiers, but
`RiskShieldClient._classify_risk_level` maps 29 to MEDIUM, not LOW as the
claim's threshold table requires. -/
theorem C6_counterexample :
    classifyRiskLevel 29 = .MEDIUM ∧ ¬ (classifyRiskLevel 29 = .LOW) := by
  decide

/-- C6 amended: `RiskLevel.from_score` follows the claimed table
`[0,30)→LOW, [30,60)→MEDIUM, [60,80)→HIGH, [80,..]→CRITICAL` with the claimed
boundary values and is monotone; the other cited classifier
`_classify_risk_level` instead uses `≤25→LOW, ≤50→MEDIUM, ≤75→HIGH,
else CRITICAL` (also monotone), so it maps 29 to MEDIUM. -/
theorem C6_amended :
    (∀ s : Int, s < 30 → RiskLevel.fromScore s = .LOW) ∧
    (∀ s : Int, 30 ≤ s → s < 60 → RiskLevel.fromScore s = .MEDIUM) ∧
    (∀ s : Int, 60 ≤ s → s < 80 → RiskLevel.fromScore s = .HIGH) ∧
    (∀ s : Int, 80 ≤ s → RiskLevel.fromScore s = .CRITICAL) ∧
    RiskLevel.fromScore 29 = .LOW ∧ RiskLevel.fromScore 30 = .MEDIUM ∧
    RiskLevel.fromScore 59 = .MEDIUM ∧ RiskLevel.fromScore 60 = .HIGH ∧
    RiskLevel.fromScore 79 = .HIGH ∧ RiskLevel.fromScore 80 = .CRITICAL ∧
    RiskLevel.fromScore 100 = .CRITICAL ∧
    (∀ s t : Int, s ≤ t →
        (RiskLevel.fromScore s).rank ≤ (RiskLevel.fromScore t).rank) ∧
    (∀ s : Int, s ≤ 25 → classifyRiskLevel s = .LOW) ∧
    (∀ s : Int, 26 ≤ s → s ≤ 50 → classifyRiskLevel s = .MEDIUM) ∧
    (∀ s : Int, 51 ≤ s → s ≤ 75 → classifyRiskLevel s = .HIGH) ∧
    (∀ s : Int, 76 ≤ s → classifyRiskLevel s = .CRITICAL) ∧
    classifyRiskLevel 29 = .MEDIUM ∧
    (∀ s t : Int, s ≤ t →
        (classifyRiskLevel s).rank ≤ (classifyRiskLevel t).rank) := by
  refine ⟨fun s h => fromScore_low h,
    fun s h1 h2 => fromScore_medium h1 h2,
    fun s h1 h2 => fromScore_high h1 h2,
    fun s h => fromScore_critical h,
    by decide, by decide, by decide, by decide, by decide, by decide,
    by decide,
    fun s t h => fromScore_mono h,
    fun s h => classify_low h,
    fun s h1 h2 => classify_medium h1 h2,
    fun s h1 h2 => classify_high h1 h2,
    fun s h => classify_critical h,
    by decide,
    fun s t h => classify_mono h⟩

/-- C6 witness: the amended claim evaluated at concrete scores. -/
theorem C6_amended_witness :
    RiskLevel.fromScore 42 = .MEDIUM ∧ classifyRiskLevel 42 = .MEDIUM :=
  ⟨C6_amended.2.1 42 (by decide) (by decide),
   C6_amended.2.2.2.2.2.2.2.2.2.2.2.2.2.1 42 (by decide) (by decide)⟩

/-- C7 counterexample: neither classifier raises for out-of-range scores;
`RiskLevel.from_score` returns CRITICAL at 150 and LOW at -5 instead of
failing with `OutOfRangeError` (no such error exists in the code). -/
theorem C7_counterexample :
    RiskLevel.fromScore 150 = .CRITICAL ∧ RiskLevel.fromScore (-5) = .LOW ∧
    classifyRiskLevel 150 = .CRITICAL ∧ classifyRiskLevel (-5) = .LOW := by
  decide

/-- C7 amended: the classifiers are total and perform no range check: every
score below 0 is classified LOW and every score above 100 CRITICAL, by both
`RiskLevel.from_score` and `_classify_risk_level`; no error is ever raised
(range enforcement exists only on the `ValidationResponse.risk_score` field
bounds). -/
theorem C7_amended :
    (∀ s : Int, s < 0 → RiskLevel.fromScore s = .LOW) ∧
    (∀ s : Int, 100 < s → RiskLevel.fromScore s = .CRITICAL) ∧
    (∀ s : Int, s < 0 → classifyRiskLevel s = .LOW) ∧
    (∀ s : Int, 100 < s → classifyRiskLevel s = .CRITICAL) :=
  ⟨fun s h => fromScore_low (by omega),
   fun s h => fromScore_critical (by omega),
   fun s h => classify_low (by omega),
   fun s h => classify_critical (by omega)⟩

/-- C7 witness: the amended claim evaluated at concrete out-of-range
scores. -/
theorem C7_amended_witness :
    RiskLevel.fromScore (-5) = .LOW ∧ RiskLevel.fromScore 150 = .CRITICAL :=
  ⟨C7_amended.1 (-5) (by decide), C7_amended.2.1 150 (by decide)⟩

/-- C10: constructing a `ValidationRequest` succeeds exactly for 13-digit
ids whose month field (digits 3-4) lies in 1..12, whose day field
(digits 5-6) lies in 1..31, and whose Luhn checksum — digits at odd
positions from the right plus the doubled-and-folded digits at even
positions — is divisible by 10; every other 13-digit id is rejected with a
validation error. -/
theorem C10_id_number_validation :
    (∀ v : String,
        validate_id_number v = .ok v ↔
          (v.data.all isDigitChar = true ∧ v.data.length = 13 ∧
           1 ≤ idMonth v ∧ idMonth v ≤ 12 ∧
           1 ≤ idDay v ∧ idDay v ≤ 31 ∧
           luhnSpecChecksum (v.data.map digitVal) % 10 = 0)) ∧
    validate_id_number "9001011234084" = .ok "9001011234084" ∧
    validate_id_number "9001011234088" =
      .error "Invalid ID number (checksum failed)" ∧
    validate_id_number "9013011234084" =
      .error "Invalid date in ID number: Invalid month in ID number" := by
  refine ⟨?_, by decide, by decide, by decide⟩
  intro v
  have hl : (luhnCheck (v.data.map digitVal) = true) ↔
      luhnSpecChecksum (v.data.map digitVal) % 10 = 0 := by
    unfold luhnCheck
    rw [luhnChecksum_eq_spec]
    simp
  unfold validate_id_number
  split_ifs with h1 h2 h3 h4 h5 <;> simp_all

/-- C1 counterexample: a transport timeout is not retried — the
`riskshield_client.py` retry executor makes exactly 1 attempt and propagates
`RiskShieldTimeoutError` — and in `riskshield.py` an upstream 401 *is*
retried, exhausting all 3 attempts; both contradict the claimed retryable
classification. -/
theorem C1_counterexample :
    (Client.validate testSettings 1 freshClient (always .timeoutExc)).attempts
      = 1 ∧
    (Client.validate testSettings 1 freshClient (always .timeoutExc)).result
      = .error .timeoutError ∧
    (Svc.validateWithRetry (always (.http 401 none {}))).2 = 3 := by
  decide

/-- C1 amended: in `riskshield_client.py` only `RiskShieldServerError`
(upstream 5xx, up to 3 total attempts) is retried — 429, transport timeouts,
401 and other 4xx all make exactly one attempt and propagate immediately; in
`riskshield.py` the retryable type is `httpx.HTTPStatusError`, which covers
5xx and 429 but also every other 4xx including 401 (all retried up to 3
attempts), while transport timeouts make exactly one attempt. -/
theorem C1_amended :
    (∀ e : Client.RSError,
        Client.clientRetryable e = true ↔ ∃ c, e = .serverError c) ∧
    (Client.validate testSettings 1 freshClient
        (always (.http 503 none {}))).attempts = 3 ∧
    (Client.validate testSettings 1 freshClient
        (always (.http 503 none {}))).result = .error (.serverError 503) ∧
    (Client.validate testSettings 1 freshClient
        (fun i => if i < 2 then .http 503 none {}
                  else .http 200 none
                         { riskScore := some 20,
                           riskLevel := some "LOW" })).result =
      .ok { riskScore := 20, riskLevel := "LOW" } ∧
    (Client.validate testSettings 1 freshClient
        (fun i => if i < 2 then .http 503 none {}
                  else .http 200 none
                         { riskScore := some 20,
                           riskLevel := some "LOW" })).attempts = 3 ∧
    (Client.validate testSettings 1 freshClient
        (always (.http 429 (some 7) {}))).attempts = 1 ∧
    (Client.validate testSettings 1 freshClient
        (always (.http 429 (some 7) {}))).result =
      .error (.rateLimitError (some 7)) ∧
    (Client.validate testSettings 1 freshClient
        (always (.http 401 none {}))).attempts = 1 ∧
    (Client.validate testSettings 1 freshClient
        (always (.http 400 none {}))).attempts = 1 ∧
    (Client.validate testSettings 1 freshClient
        (always (.http 400 none {}))).result = .error (.apiError 400) ∧
    (Client.validate testSettings 1 freshClient
        (always .timeoutExc)).attempts = 1 ∧
    (∀ e : Svc.SvcError,
        Svc.svcRetryable e = true ↔ ∃ c, e = .httpStatusError c) ∧
    Svc.validateWithRetry (always (.http 503 none {})) =
      (.error (.httpStatusError 503), 3) ∧
    Svc.validateWithRetry (always (.http 429 none {})) =
      (.error (.httpStatusError 429), 3) ∧
    Svc.validateWithRetry (always (.http 401 none {})) =
      (.error (.httpStatusError 401), 3) ∧
    Svc.validateWithRetry (always .timeoutExc) =
      (.error .timeoutError, 1) := by
  refine ⟨?_, by decide, by decide, by decide, by decide, by decide,
    by decide, by decide, by decide, by decide, by decide, ?_,
    by decide, by decide, by decide, by decide⟩
  · intro e
    cases e <;> simp [Client.clientRetryable]
  · intro e
    cases e <;> simp [Svc.svcRetryable]

/-- C2 counterexample: with the `riskshield_client.py` breaker OPEN and the
recovery timeout not elapsed, `validate` does not fail immediately with a
circuit-open error: the fast-fail raises `RiskShieldServerError(503)`, which
the surrounding retry executor classifies as retryable, so 3 fast-fail
attempts occur before the 503-typed server error propagates. -/
theorem C2_counterexample :
    (Client.validate testSettings 1 openClient
        (always (.http 200 none inconsistentBody))).result =
      .error (.serverError 503) ∧
    (Client.validate testSettings 1 openClient
        (always (.http 200 none inconsistentBody))).attempts = 3 := by
  decide

/-- C2 amended: in `riskshield.py`, a call while the breaker is open fails
immediately with `RiskShieldCircuitOpenError`, with no network attempt and
the breaker state (including its failure counter) unchanged; in
`riskshield_client.py` the open-breaker fast-fail raises
`RiskShieldServerError(503)` and is retried up to 3 times, but likewise
performs no credential lookup, no network call, and leaves the failure
counter unchanged. -/
theorem C2_amended :
    (∀ (st : Svc.SvcState) (now : Nat)
        (resps : Nat → Client.UpstreamResponse) (idNumber k : String),
        st.apiKey = some k → st.breaker.isOpen now = true →
        Svc.validateApplicant st now resps idNumber =
          { result := .error .circuitOpenError, state := st,
            networkAttempts := 0 }) ∧
    (Client.validate testSettings 1 openClient
        (always (.http 200 none inconsistentBody))).result =
      .error (.serverError 503) ∧
    (Client.validate testSettings 1 openClient
        (always (.http 200 none inconsistentBody))).networkCalls = 0 ∧
    (Client.validate testSettings 1 openClient
        (always (.http 200 none inconsistentBody))).credentialLookups = 0 ∧
    (Client.validate testSettings 1 openClient
        (always (.http 200 none inconsistentBody))).state = openClient := by
  refine ⟨?_, by decide, by decide, by decide, by decide⟩
  intro st now resps idNumber k hk hopen
  obtain ⟨ak, br⟩ := st
  simp only at hk
  subst hk
  simp only at hopen
  simp [Svc.validateApplicant, hopen]

/-- C2 witness: the amended claim applied to a concretely open
`riskshield.py` breaker. -/
theorem C2_amended_witness :
    Svc.validateApplicant openSvc 1 (always (.http 200 none {})) "x" =
      { result := .error .circuitOpenError, state := openSvc,
        networkAttempts := 0 } :=
  C2_amended.1 openSvc 1 (always (.http 200 none {})) "x" "k" rfl (by decide)

/-- C3 counterexample: when the upstream answers 503 on every attempt, one
`validate()` call increments the `riskshield_client.py` breaker's failure
counter 3 times (once per retry attempt), not exactly once. -/
theorem C3_counterexample :
    (Client.validate testSettings 1 freshClient
        (always (.http 503 none {}))).state.breaker.failureCount = 3 ∧
    ¬ ((Client.validate testSettings 1 freshClient
        (always (.http 503 none {}))).state.breaker.failureCount = 1) := by
  decide

/-- C3 amended: with the upstream always returning 503, one `validate()`
call exhausts its 3 attempts, surfaces `RiskShieldServerError(503)` — which
the route maps to the HTTP 503 service-unavailable category — and the
breaker's failure counter increments once per attempt, i.e. by 3 for the
call. -/
theorem C3_amended :
    (Client.validate testSettings 1 freshClient
        (always (.http 503 none {}))).result = .error (.serverError 503) ∧
    (Client.validate testSettings 1 freshClient
        (always (.http 503 none {}))).attempts = 3 ∧
    (Client.validate testSettings 1 freshClient
        (always (.http 503 none {}))).networkCalls = 3 ∧
    (Client.validate testSettings 1 freshClient
        (always (.http 503 none {}))).state.breaker.failureCount = 3 ∧
    Route.routeErrorStatus (.serverError 503) = 503 := by
  decide

/-- C4 counterexample: in the `riskshield_client.py` breaker, a success
recorded in the CLOSED state does not reset the failure counter: after one
failure and one success the counter is still 1 (state CLOSED). -/
theorem C4_counterexample :
    ((Client.CircuitBreaker.recordFailure {} 0).recordSuccess).failureCount
      = 1 ∧
    ((Client.CircuitBreaker.recordFailure {} 0).recordSuccess).state
      = CircuitState.CLOSED := by
  decide

/-- C4 amended: the `riskshield.py` breaker behaves as claimed — every
failure increments the counter and any success resets it to 0 and closes the
circuit — but the `riskshield_client.py` breaker resets the counter only
when the success is recorded in HALF_OPEN; in CLOSED, `record_success` is a
no-op, so the counter keeps its value. -/
theorem C4_amended :
    (∀ b : Svc.CircuitBreaker,
        b.recordSuccess.failureCount = 0 ∧ b.recordSuccess.openedAt = none) ∧
    (∀ (b : Svc.CircuitBreaker) (now : Nat),
        (b.recordFailure now).failureCount = b.failureCount + 1) ∧
    (∀ (b : Svc.CircuitBreaker) (t : Nat),
        b.recordSuccess.isOpen t = false) ∧
    (∀ b : Client.CircuitBreaker, b.state = .CLOSED → b.recordSuccess = b) ∧
    (∀ (b : Client.CircuitBreaker) (now : Nat),
        (b.recordFailure now).failureCount = b.failureCount + 1) ∧
    (∀ b : Client.CircuitBreaker, b.state = .HALF_OPEN →
        b.recordSuccess.failureCount = 0 ∧
        b.recordSuccess.state = .CLOSED) := by
  refine ⟨fun b => ⟨rfl, rfl⟩, ?_, fun b t => rfl, ?_, ?_, ?_⟩
  · intro b now
    unfold Svc.CircuitBreaker.recordFailure
    dsimp only
    split_ifs with h
    · cases b.openedAt <;> rfl
    · rfl
  · intro b h
    unfold Client.CircuitBreaker.recordSuccess
    rw [h]
  · intro b now
    unfold Client.CircuitBreaker.recordFailure
    cases hb : b.state <;> simp [hb] <;> split_ifs <;> rfl
  · intro b h
    unfold Client.CircuitBreaker.recordSuccess
    rw [h]
    exact ⟨rfl, rfl⟩

/-- C4 witness: the amended claim applied to concrete breakers in CLOSED
and HALF_OPEN states. -/
theorem C4_amended_witness :
    Client.CircuitBreaker.recordSuccess { failureCount := 4 } =
      ({ failureCount := 4 } : Client.CircuitBreaker) ∧
    (Client.CircuitBreaker.recordSuccess
        { state := .HALF_OPEN, failureCount := 4 }).failureCount = 0 :=
  ⟨C4_amended.2.2.2.1 { failureCount := 4 } rfl,
   (C4_amended.2.2.2.2.2 { state := .HALF_OPEN, failureCount := 4 } rfl).1⟩

/-- C8 counterexample: on a 2xx response whose body has neither `riskScore`
nor `riskLevel`, `riskshield_client.py` does not fail: it fabricates the
defaults `riskScore=0`, `riskLevel="UNKNOWN"` and returns success after one
attempt. -/
theorem C8_counterexample :
    (Client.validate testSettings 1 freshClient
        (always (.http 200 none {}))).result =
      .ok { riskScore := 0, riskLevel := "UNKNOWN" } ∧
    (Client.validate testSettings 1 freshClient
        (always (.http 200 none {}))).attempts = 1 := by
  decide

/-- C8 amended: on a 2xx body with missing or malformed score/level fields,
`riskshield_client.py` substitutes the defaults `0` / `"UNKNOWN"` and
succeeds (even recording a breaker success), whereas `riskshield.py` raises
a non-retryable `KeyError` (missing field) or `ValueError` (invalid level
string) after exactly one attempt and without fabricating a value. -/
theorem C8_amended :
    (Client.validate testSettings 1 freshClient
        (always (.http 200 none {}))).result =
      .ok { riskScore := 0, riskLevel := "UNKNOWN" } ∧
    (Client.validate testSettings 1 freshClient
        (always (.http 200 none
          { riskScore := none, riskLevel := some "LOW" }))).result =
      .ok { riskScore := 0, riskLevel := "LOW" } ∧
    Svc.validateWithRetry
        (always (.http 200 none { riskScore := none,
                                  riskLevel := some "LOW" })) =
      (.error .keyError, 1) ∧
    Svc.validateWithRetry
        (always (.http 200 none { riskScore := some 5,
                                  riskLevel := none })) =
      (.error .keyError, 1) ∧
    Svc.validateWithRetry
        (always (.http 200 none { riskScore := some 5,
                                  riskLevel := some "LO" })) =
      (.error .valueError, 1) ∧
    Svc.svcRetryable .keyError = false ∧
    Svc.svcRetryable .valueError = false := by
  decide

/-- Helper: once the cached `_api_key` is cleared, `_get_api_key` never
reports a cache hit — every branch performs a fresh resolution or fails. -/
theorem getApiKey_not_hit (settings : Client.Settings)
    (st : Client.ClientState) (h : st.apiKey = none) :
    (Client.getApiKey settings st).2 = false := by
  obtain ⟨ak, br⟩ := st
  simp only at h
  subst h
  obtain ⟨rak, kvu, kvs⟩ := settings
  cases rak <;> cases kvu <;> cases kvs <;> rfl

/-- C9: an upstream 401 on a call using a cached credential invalidates the
cached `_api_key` before the `RiskShieldAuthError` propagates (after exactly
one attempt), so the next `_get_api_key` call is a fresh resolution, not a
cache hit. -/
theorem C9_auth_cache_invalidation (settings : Client.Settings)
    (st : Client.ClientState) (k : String) (now : Nat)
    (resps : Nat → Client.UpstreamResponse) (ra : Option Nat)
    (body : Client.Body) (hk : st.apiKey = some k)
    (hstate : st.breaker.state = .CLOSED)
    (hresp : resps 0 = .http 401 ra body) :
    (Client.validate settings now st resps).result = .error .authError ∧
    (Client.validate settings now st resps).attempts = 1 ∧
    (Client.validate settings now st resps).state.apiKey = none ∧
    (Client.getApiKey settings
        (Client.validate settings now st resps).state).2 = false := by
  obtain ⟨ak, br⟩ := st
  simp only at hk hstate
  subst hk
  have hrun : Client.validate settings now ⟨some k, br⟩ resps =
      { result := .error .authError,
        state := { apiKey := none,
                   breaker := Client.CircuitBreaker.recordFailure br now },
        attempts := 1, networkCalls := 1, credentialLookups := 1 } := by
    unfold Client.validate Client.validateGo Client.clientAttempt
    rw [hresp]
    simp [Client.CircuitBreaker.canExecute, hstate, Client.getApiKey,
      Client.clientRetryable]
  rw [hrun]
  exact ⟨rfl, rfl, rfl, getApiKey_not_hit settings _ rfl⟩

/-- C9 witness: the theorem applied to a concrete cached-credential client
receiving a 401. -/
theorem C9_auth_cache_invalidation_witness :
    (Client.validate testSettings 1 freshClient
        (always (.http 401 none {}))).result = .error .authError ∧
    (Client.validate testSettings 1 freshClient
        (always (.http 401 none {}))).attempts = 1 ∧
    (Client.validate testSettings 1 freshClient
        (always (.http 401 none {}))).state.apiKey = none ∧
    (Client.getApiKey testSettings
        (Client.validate testSettings 1 freshClient
          (always (.http 401 none {}))).state).2 = false :=
  C9_auth_cache_invalidation testSettings freshClient "k" 1
    (always (.http 401 none {})) none {} rfl rfl rfl

end RiskApp
